import Mathlib

/-!
Shallow embedding of `cmd/buildctl/debug/workers.go`: the worker inventory
reporter of buildctl.  The renderers write a sequence of `\n`-terminated
strings through `fmt.Fprintf`, so each renderer is modelled as the list of
lines it emits (each list element is one line, without its trailing newline;
the tab-alignment pass of `text/tabwriter` is an external library concern and
operates on the very same text).  The orchestrator `listWorkers` is modelled
over an abstract template engine and an abstract output sink, and returns the
reporter's result together with the sequence of writes handed to the sink.
-/

namespace BuildctlDebug

/-- OCI platform descriptor (`ocispecs.Platform`): operating system,
architecture and optional variant. -/
structure Platform where
  os : String
  architecture : String
  variant : String
deriving DecidableEq

/-- Modelled from the spec: §4.1 Platform Formatter.  Stand-in for the external
`platforms.Format(platforms.Normalize(pp))` of the containerd library (not under
`src/`): the canonical slash-joined `os/arch[/variant]` form.  The claims depend
only on where the renderer invokes it, never on its exact text. -/
def formatNormalize (p : Platform) : String :=
  p.os ++ "/" ++ p.architecture ++ (if p.variant = "" then "" else "/" ++ p.variant)

/-- `joinPlatforms` from workers.go: format each descriptor in order and
`strings.Join(str, ",")` the results. -/
def joinPlatforms (p : List Platform) : String :=
  String.intercalate "," (p.map formatNormalize)

/-- `client.BuildkitVersion`: free-form provenance strings. -/
structure BuildkitVersion where
  pkg : String
  version : String
  revision : String
deriving DecidableEq

/-- `client.CDIDevice`.  The Go `Annotations map[string]string` is modelled as
an association list whose keys are pairwise distinct (the Go map invariant). -/
structure CDIDevice where
  name : String
  autoAllow : Bool
  onDemand : Bool
  annotations : List (String × String)
deriving DecidableEq

/-- `client.PruneInfo` / GC rule: `All`, `Filter`, `KeepDuration` and the three
byte thresholds.  Durations and byte counts are non-negative integers. -/
structure GCPolicyRule where
  all : Bool
  filter : List String
  keepDuration : Nat
  reservedSpace : Nat
  minFreeSpace : Nat
  maxUsedSpace : Nat
deriving DecidableEq

/-- `client.WorkerInfo`.  The Go `Labels map[string]string` is modelled as an
association list whose keys are pairwise distinct (the Go map invariant). -/
structure WorkerInfo where
  id : String
  labels : List (String × String)
  platforms : List Platform
  buildkitVersion : BuildkitVersion
  gcPolicy : List GCPolicyRule
  cdiDevices : List CDIDevice
deriving DecidableEq

/-- `sortedKeys` from workers.go: `slices.Sorted(maps.Keys(m))`, the keys of the
map in ascending ordinal order. -/
def sortedKeys {T : Type} (m : List (String × T)) : List String :=
  List.insertionSort (· ≤ ·) (m.map Prod.fst)

/-- Go map indexing `m[k]`: the value stored for `k`, or the string zero value
`""` when the key is absent. -/
def lookupD (m : List (String × String)) (k : String) : String :=
  (m.lookup k).getD ""

/-- Go `%v` formatting of a `bool`. -/
def goFormatBool (b : Bool) : String :=
  if b then "true" else "false"

/-- Modelled from the spec: stand-in for Go's `time.Duration.String()` (stdlib,
not under `src/`), used for the `Keep duration` line.  The claims depend only on
when the renderer emits the line, never on its exact text. -/
def durationString (d : Nat) : String :=
  toString d ++ "ns"

/-- Modelled from the spec: §4.2 Byte-Quantity Formatter, stand-in for the
external `units.Bytes` `%g` rendering (tonistiigi/units, not under `src/`).
The claims depend only on when the renderer emits the line, never on its exact
text. -/
def unitsBytes (n : Nat) : String :=
  toString n ++ "B"

/-- The label block of `printWorkersVerbose`:
`for _, k := range sortedKeys(wi.Labels) { v := wi.Labels[k]; "\t%s:\t%s\n" }`. -/
def labelLines (m : List (String × String)) : List String :=
  (sortedKeys m).map (fun k => "\t" ++ k ++ ":\t" ++ lookupD m k)

/-- The annotation block of one device:
`for _, k := range sortedKeys(d.Annotations) { "\tAnnotations:\t%s:\t%s\n" }`. -/
def annotationLines (m : List (String × String)) : List String :=
  (sortedKeys m).map (fun k => "\tAnnotations:\t" ++ k ++ ":\t" ++ lookupD m k)

/-- One device block of the `Devices:` section of `printWorkersVerbose`:
the name line, then `OnDemand` if `d.OnDemand` and otherwise `AutoAllow`,
then the sorted annotation lines. -/
def deviceLines (d : CDIDevice) : List String :=
  ("\tName:\t" ++ d.name)
    :: (if d.onDemand then "\tOnDemand:\t" ++ goFormatBool d.onDemand
        else "\tAutoAllow:\t" ++ goFormatBool d.autoAllow)
    :: annotationLines d.annotations

/-- One GC-policy rule block of `printWorkersVerbose`: the indexed header and
the `All:` line always, then one optional line per non-zero / non-empty field. -/
def gcRuleLines (i : Nat) (rule : GCPolicyRule) : List String :=
  ["GC Policy rule#" ++ toString i ++ ":", "\tAll:\t" ++ goFormatBool rule.all]
  ++ (if rule.filter.length > 0 then
        ["\tFilters:\t" ++ String.intercalate " " rule.filter] else [])
  ++ (if rule.keepDuration > 0 then
        ["\tKeep duration:\t" ++ durationString rule.keepDuration] else [])
  ++ (if rule.reservedSpace > 0 then
        ["\tReserved space:\t" ++ unitsBytes rule.reservedSpace] else [])
  ++ (if rule.minFreeSpace > 0 then
        ["\tMinimum free space:\t" ++ unitsBytes rule.minFreeSpace] else [])
  ++ (if rule.maxUsedSpace > 0 then
        ["\tMaximum used space:\t" ++ unitsBytes rule.maxUsedSpace] else [])

/-- The per-worker body of `printWorkersVerbose`: ID, Platforms, BuildKit and
`Labels:` lines, the sorted label lines, the `Devices:` section when
`len(wi.CDIDevices) > 0` (with its trailing blank line), the GC rule blocks
indexed from 0, and the worker's trailing blank line. -/
def workerVerboseLines (wi : WorkerInfo) : List String :=
  ["ID:\t" ++ wi.id,
   "Platforms:\t" ++ joinPlatforms wi.platforms,
   "BuildKit:\t" ++ wi.buildkitVersion.pkg ++ " " ++ wi.buildkitVersion.version
     ++ " " ++ wi.buildkitVersion.revision,
   "Labels:"]
  ++ labelLines wi.labels
  ++ (if wi.cdiDevices.length > 0 then
        "Devices:" :: (wi.cdiDevices.flatMap deviceLines ++ [""])
      else [])
  ++ (wi.gcPolicy.enum.flatMap (fun p => gcRuleLines p.1 p.2))
  ++ [""]

/-- `printWorkersVerbose` from workers.go, as the list of lines queued on the
tabwriter before the final `tw.Flush()`. -/
def printWorkersVerbose (winfo : List WorkerInfo) : List String :=
  winfo.flatMap workerVerboseLines

/-- `printWorkersTable` from workers.go: the header row, then one
`"%s\t%s"` row per worker in input order. -/
def printWorkersTable (winfo : List WorkerInfo) : List String :=
  "ID\tPLATFORMS" :: winfo.map (fun wi => wi.id ++ "\t" ++ joinPlatforms wi.platforms)

/-- The `--format` / `--verbose` configuration of the `workers` command.
`clicontext.String("format")` yields the flag's value, or the string zero value
`""` when the flag was not supplied. -/
structure Config where
  format : Option String
  verbose : Bool
deriving DecidableEq

/-- The string `clicontext.String("format")` hands to `listWorkers`. -/
def Config.formatString (cfg : Config) : String :=
  cfg.format.getD ""

/-- The error kinds of the reporter (§7 of the spec): template syntax errors
(carrying the offending template text), template execution errors, and sink
write errors. -/
inductive RenderError where
  | templateSyntax (tmpl : String) (msg : String)
  | templateExec (msg : String)
  | sinkWrite (msg : String)
deriving DecidableEq

/-- Which renderer ran, together with what it rendered. -/
inductive Rendered where
  | table (lines : List String)
  | verbose (lines : List String)
  | template (text : String)
deriving DecidableEq

/-- Abstract template engine (`bccommon.ParseTemplate` / `text/template`, code
not under `src/`): `parse` compiles the format string to a compiled template of
some type `τ`, `execute` expands a compiled template against the value it is
bound to — here the entire worker set as one top-level value. -/
structure TemplateEngine (τ : Type) where
  parse : String → Except String τ
  execute : τ → List WorkerInfo → Except String String

/-- The text handed to the sink by `tw.Flush()`: the queued lines, each with
its trailing newline restored. -/
def unlines (ls : List String) : String :=
  String.join (ls.map (fun l => l ++ "\n"))

/-- The template branch of `listWorkers`: parse the format string, expand the
compiled template once against the entire worker set, write the expansion, then
write one `"\n"`; the first failing step's error is returned and later steps do
not run.  (In Go the expansion is streamed to the writer during `Execute`; the
model produces the expansion text and then writes it, which distinguishes the
spec's execution errors from its sink-write errors.)  Returns the result paired
with the writes attempted on the sink. -/
def runTemplateMode {τ : Type} (eng : TemplateEngine τ)
    (sink : String → Except String Unit) (format : String)
    (workers : List WorkerInfo) : Except RenderError Rendered × List String :=
  match eng.parse format with
  | .error e => (.error (.templateSyntax format e), [])
  | .ok t =>
    match eng.execute t workers with
    | .error e => (.error (.templateExec e), [])
    | .ok s =>
      match sink s with
      | .error e => (.error (.sinkWrite e), [s])
      | .ok _ =>
        match sink "\n" with
        | .error e => (.error (.sinkWrite e), [s, "\n"])
        | .ok _ => (.ok (.template (s ++ "\n")), [s, "\n"])

/-- `listWorkers` from workers.go, after the client fetch (client resolution and
the `ListWorkers` RPC are external collaborators): if the format flag is a
non-empty string, run the template renderer (`--verbose` only triggers a debug
log there, which has no output effect); otherwise queue the verbose or table
lines on the tabwriter and flush it, discarding the flush's error value exactly
as the source does, and return `nil`.  The second component is the sequence of
writes attempted on the output sink. -/
def listWorkers {τ : Type} (eng : TemplateEngine τ)
    (sink : String → Except String Unit) (cfg : Config)
    (workers : List WorkerInfo) : Except RenderError Rendered × List String :=
  if Config.formatString cfg ≠ "" then
    runTemplateMode eng sink (Config.formatString cfg) workers
  else if cfg.verbose then
    let lines := printWorkersVerbose workers
    let _ := sink (unlines lines)
    (.ok (.verbose lines), [unlines lines])
  else
    let lines := printWorkersTable workers
    let _ := sink (unlines lines)
    (.ok (.table lines), [unlines lines])

/-- Observer: `tag` is a prefix of the line `s`, compared on the character
data.  Used to classify rendered lines. -/
def lineTagged (tag s : String) : Bool :=
  tag.data.isPrefixOf s.data

/-- Engine whose template expands to the element count of the bound value, as
`{{len .}}` does; used to instantiate the template-mode theorems. -/
def constEngine : TemplateEngine Unit where
  parse _ := Except.ok ()
  execute _ ws := Except.ok (toString ws.length)

/-- Engine whose parse step always fails. -/
def badParseEngine : TemplateEngine Unit where
  parse s := Except.error ("syntax: " ++ s)
  execute _ _ := Except.ok ""

/-- Engine that parses everything and always fails at expansion time. -/
def badExecEngine : TemplateEngine Unit where
  parse _ := Except.ok ()
  execute _ _ := Except.error "exec fault"

/-- A sink that accepts every write. -/
def okSink : String → Except String Unit := fun _ => Except.ok ()

/-- A sink that rejects every write. -/
def failSink : String → Except String Unit := fun _ => Except.error "sink closed"

/-- A minimal worker. -/
def w0 : WorkerInfo where
  id := "w1"
  labels := []
  platforms := [⟨"linux", "amd64", ""⟩]
  buildkitVersion := ⟨"", "", ""⟩
  gcPolicy := []
  cdiDevices := []

/- ## Helper lemmas -/

theorem prefix_mismatch {α : Type} [BEq α] [LawfulBEq α] :
    ∀ (l m r : List α), l.isPrefixOf m = false → m.isPrefixOf l = false →
      l.isPrefixOf (m ++ r) = false := by
  intro l
  induction l with
  | nil => intro m r h1 _; simp at h1
  | cons a as ih =>
    intro m r h1 h2
    cases m with
    | nil => simp at h2
    | cons b bs =>
      simp only [List.cons_append, List.isPrefixOf_cons₂] at h1 h2 ⊢
      cases hab : a == b with
      | false => simp [hab]
      | true =>
        have hba : b == a := by
          have := eq_of_beq hab; subst this; exact hab
        simp only [hab, hba, Bool.true_and] at h1 h2 ⊢
        exact ih bs r h1 h2

theorem prefix_extend {α : Type} [BEq α] :
    ∀ (l m r : List α), l.isPrefixOf m = true → l.isPrefixOf (m ++ r) = true := by
  intro l
  induction l with
  | nil => intro m r _; simp
  | cons a as ih =>
    intro m r h
    cases m with
    | nil => simp at h
    | cons b bs =>
      simp only [List.cons_append, List.isPrefixOf_cons₂] at h ⊢
      cases hab : a == b with
      | false => simp [hab] at h
      | true => simpa [hab] using ih bs r (by simpa [hab] using h)

/-- A line `head ++ rest` does not carry `tag` when `tag` and `head` disagree
within their common length, whatever `rest` is. -/
theorem lineTagged_append_false (tag head rest : String)
    (h1 : tag.data.isPrefixOf head.data = false)
    (h2 : head.data.isPrefixOf tag.data = false) :
    lineTagged tag (head ++ rest) = false := by
  show (tag.data.isPrefixOf (head ++ rest).data) = false
  rw [String.data_append]
  exact prefix_mismatch _ _ _ h1 h2

/-- A line `head ++ rest` carries `tag` whenever `tag` is a prefix of `head`,
whatever `rest` is. -/
theorem lineTagged_append_true (tag head rest : String)
    (h : tag.data.isPrefixOf head.data = true) :
    lineTagged tag (head ++ rest) = true := by
  show (tag.data.isPrefixOf (head ++ rest).data) = true
  rw [String.data_append]
  exact prefix_extend _ _ _ h

theorem sortedKeys_sorted {T : Type} (m : List (String × T)) :
    List.Sorted (· ≤ ·) (sortedKeys m) :=
  List.sorted_insertionSort _ _

theorem sortedKeys_perm {T : Type} (m : List (String × T)) :
    (sortedKeys m).Perm (m.map Prod.fst) :=
  List.perm_insertionSort _ _

/-- The sorted key sequence only depends on the map's contents, not on the
iteration order in which its entries are listed. -/
theorem sortedKeys_eq_of_perm {T : Type} {m m' : List (String × T)} (h : m.Perm m') :
    sortedKeys m = sortedKeys m' :=
  List.eq_of_perm_of_sorted
    (((sortedKeys_perm m).trans (h.map Prod.fst)).trans (sortedKeys_perm m').symm)
    (sortedKeys_sorted m) (sortedKeys_sorted m')

/-- With pairwise-distinct keys (the Go map invariant), the sorted key sequence
is strictly ascending. -/
theorem sortedKeys_pairwise_lt {T : Type} {m : List (String × T)}
    (hnd : (m.map Prod.fst).Nodup) :
    List.Pairwise (· < ·) (sortedKeys m) := by
  have hs : List.Pairwise (· ≤ ·) (sortedKeys m) := sortedKeys_sorted m
  have hn : (sortedKeys m).Nodup := (sortedKeys_perm m).symm.nodup hnd
  exact (hs.and hn).imp (fun h => lt_of_le_of_ne h.1 h.2)

/-- Map lookup only depends on the map's contents when its keys are pairwise
distinct. -/
theorem lookup_eq_of_perm {m m' : List (String × String)} (h : m.Perm m')
    (hnd : (m.map Prod.fst).Nodup) (k : String) :
    m.lookup k = m'.lookup k := by
  induction h with
  | nil => rfl
  | cons x h ih =>
    obtain ⟨x1, x2⟩ := x
    simp only [List.map_cons, List.nodup_cons] at hnd
    cases hkx : k == x1 with
    | true => simp [List.lookup, hkx]
    | false => simp [List.lookup, hkx, ih hnd.2]
  | swap x y l =>
    obtain ⟨x1, x2⟩ := x
    obtain ⟨y1, y2⟩ := y
    simp only [List.map_cons, List.nodup_cons, List.mem_cons] at hnd
    have hxy : y1 ≠ x1 := fun e => hnd.1 (Or.inl e)
    cases hky : k == y1 <;> cases hkx : k == x1 <;>
      simp [List.lookup, hky, hkx]
    exact absurd ((eq_of_beq hky).symm.trans (eq_of_beq hkx)) hxy
  | trans h1 h2 ih1 ih2 =>
    exact (ih1 hnd).trans (ih2 ((h1.map Prod.fst).nodup hnd))

theorem take_append_pair {α : Type} (A B R : List α) :
    ((A ++ B) ++ R).take (A.length + B.length) = A ++ B := by
  rw [← List.length_append]
  exact List.take_left _ _

/- ## Claim theorems -/

/-- **C1.** The reporter selects exactly one renderer: a supplied (non-empty)
template runs the template renderer whatever the verbose flag is (the
right-hand side does not mention the flag, so `--verbose` is silently ignored
rather than an error); with no template, verbose `true` runs the verbose
renderer and verbose `false` the table renderer. -/
theorem listWorkers_selects_renderer {τ : Type} (eng : TemplateEngine τ)
    (sink : String → Except String Unit) (workers : List WorkerInfo) :
    (∀ (t : String) (v : Bool), t ≠ "" →
      listWorkers eng sink ⟨some t, v⟩ workers = runTemplateMode eng sink t workers) ∧
    listWorkers eng sink ⟨none, true⟩ workers =
      (Except.ok (Rendered.verbose (printWorkersVerbose workers)),
       [unlines (printWorkersVerbose workers)]) ∧
    listWorkers eng sink ⟨none, false⟩ workers =
      (Except.ok (Rendered.table (printWorkersTable workers)),
       [unlines (printWorkersTable workers)]) := by
  refine ⟨fun t v ht => ?_, ?_, ?_⟩
  · simp [listWorkers, Config.formatString, ht]
  · simp [listWorkers, Config.formatString]
  · simp [listWorkers, Config.formatString]

/-- Witness for C1 at a concrete template, flag and worker set. -/
theorem listWorkers_selects_renderer_witness :
    listWorkers constEngine okSink ⟨some "\x7b\x7bjson .\x7d\x7d", true⟩ [w0] =
      runTemplateMode constEngine okSink "\x7b\x7bjson .\x7d\x7d" [w0] ∧
    listWorkers constEngine okSink ⟨none, false⟩ [w0] =
      (Except.ok (Rendered.table (printWorkersTable [w0])),
       [unlines (printWorkersTable [w0])]) :=
  ⟨(listWorkers_selects_renderer constEngine okSink [w0]).1 "\x7b\x7bjson .\x7d\x7d" true (by decide),
   (listWorkers_selects_renderer constEngine okSink [w0]).2.2⟩

/-- **C2.** Table mode renders the `ID\tPLATFORMS` header first, then exactly
one row per worker in input order — `1 + len(workers)` lines in total — and each
data row's platform column is the comma-join of the normalized platform strings
in their original order; the empty platform sequence joins to `""`. -/
theorem printWorkersTable_shape (winfo : List WorkerInfo) :
    printWorkersTable winfo =
      "ID\tPLATFORMS" ::
        winfo.map (fun wi => wi.id ++ "\t" ++
          String.intercalate "," (wi.platforms.map formatNormalize)) ∧
    (printWorkersTable winfo).length = 1 + winfo.length ∧
    joinPlatforms [] = "" := by
  refine ⟨rfl, ?_, rfl⟩
  simp [printWorkersTable, Nat.add_comm]

/-- **C9.** Rendering is deterministic: the renderers and the reporter are pure
functions of their input — the embedding carries no state across invocations,
as the source holds none — so rendering the same worker set and configuration
twice produces identical output. -/
theorem listWorkers_deterministic {τ : Type} (eng : TemplateEngine τ)
    (sink : String → Except String Unit) (cfg : Config) (workers : List WorkerInfo) :
    listWorkers eng sink cfg workers = listWorkers eng sink cfg workers ∧
    printWorkersTable workers = printWorkersTable workers ∧
    printWorkersVerbose workers = printWorkersVerbose workers :=
  ⟨rfl, rfl, rfl⟩

/-- **C10.** A present-but-empty template string is treated exactly like an
absent template: the reporter selects verbose or table mode by the verbose flag
and the result is a success, never a template parse or execution error. -/
theorem listWorkers_empty_format {τ : Type} (eng : TemplateEngine τ)
    (sink : String → Except String Unit) (workers : List WorkerInfo) (v : Bool) :
    listWorkers eng sink ⟨some "", v⟩ workers = listWorkers eng sink ⟨none, v⟩ workers ∧
    (listWorkers eng sink ⟨some "", v⟩ workers).1 =
      Except.ok (if v then Rendered.verbose (printWorkersVerbose workers)
                 else Rendered.table (printWorkersTable workers)) := by
  cases v <;> simp [listWorkers, Config.formatString]

/-- **C6.** In template mode the expansion is a single application of the
engine to the entire worker set bound as the one top-level value (`execute` is
applied to `workers` as a whole, not per worker), and on success the sink
receives exactly the expansion followed by exactly one `"\n"`. -/
theorem listWorkers_template_whole_set {τ : Type} (eng : TemplateEngine τ)
    (sink : String → Except String Unit) (workers : List WorkerInfo)
    (t : String) (tc : τ) (s : String) (v : Bool)
    (ht : t ≠ "") (hp : eng.parse t = Except.ok tc)
    (he : eng.execute tc workers = Except.ok s)
    (hs : sink s = Except.ok ()) (hn : sink "\n" = Except.ok ()) :
    listWorkers eng sink ⟨some t, v⟩ workers =
      (Except.ok (Rendered.template (s ++ "\n")), [s, "\n"]) := by
  simp [listWorkers, runTemplateMode, Config.formatString, ht, hp, he, hs, hn]

/-- Witness for C6: a `{{len .}}`-like template over a three-element worker set
expands to `"3"` and the sink receives `"3"` then `"\n"`. -/
theorem listWorkers_template_whole_set_witness :
    listWorkers constEngine okSink ⟨some "\x7b\x7blen .\x7d\x7d", false⟩ [w0, w0, w0] =
      (Except.ok (Rendered.template ("3" ++ "\n")), ["3", "\n"]) :=
  listWorkers_template_whole_set constEngine okSink [w0, w0, w0]
    "\x7b\x7blen .\x7d\x7d" () "3" false (by decide) rfl rfl rfl rfl

/-- **C7.** In template mode a parse failure returns the syntax error carrying
the offending template text, with no sink write and no dependence on the
execution function (the engine's `execute` is arbitrary here, so the template
is not executed); a successful parse followed by an expansion failure returns
the execution error.  Both errors are the reporter's return value. -/
theorem listWorkers_template_errors {τ : Type} (eng : TemplateEngine τ)
    (sink : String → Except String Unit) (workers : List WorkerInfo)
    (t : String) (v : Bool) (ht : t ≠ "") :
    (∀ e, eng.parse t = Except.error e →
      listWorkers eng sink ⟨some t, v⟩ workers =
        (Except.error (RenderError.templateSyntax t e), [])) ∧
    (∀ tc e, eng.parse t = Except.ok tc → eng.execute tc workers = Except.error e →
      listWorkers eng sink ⟨some t, v⟩ workers =
        (Except.error (RenderError.templateExec e), [])) := by
  constructor
  · intro e hp
    simp [listWorkers, runTemplateMode, Config.formatString, ht, hp]
  · intro tc e hp he
    simp [listWorkers, runTemplateMode, Config.formatString, ht, hp, he]

/-- Witness for C7: concrete failing engines. -/
theorem listWorkers_template_errors_witness :
    listWorkers badParseEngine okSink ⟨some "\x7b\x7b", true⟩ [w0] =
      (Except.error (RenderError.templateSyntax "\x7b\x7b" ("syntax: " ++ "\x7b\x7b")), []) ∧
    listWorkers badExecEngine okSink ⟨some "\x7b\x7b.Missing\x7d\x7d", true⟩ [w0] =
      (Except.error (RenderError.templateExec "exec fault"), []) :=
  ⟨(listWorkers_template_errors badParseEngine okSink [w0] "\x7b\x7b" true
      (by decide)).1 ("syntax: " ++ "\x7b\x7b") rfl,
   (listWorkers_template_errors badExecEngine okSink [w0] "\x7b\x7b.Missing\x7d\x7d" true
      (by decide)).2 () "exec fault" rfl rfl⟩

/-- **C8 (counterexample).** The claim "in every render mode a failed sink
write is surfaced as an error" is false: with a sink that rejects every write,
table mode still attempts the flush write and the reporter returns success —
`printWorkersTable`'s queued text is flushed with the flush's error value
discarded, exactly as the source discards `tw.Flush()`'s result. -/
theorem listWorkers_sink_error_ignored_cex :
    listWorkers constEngine failSink ⟨none, false⟩ [] =
      (Except.ok (Rendered.table ["ID\tPLATFORMS"]), ["ID\tPLATFORMS\n"]) ∧
    failSink "ID\tPLATFORMS\n" = Except.error "sink closed" := by
  constructor
  · simp [listWorkers, Config.formatString, printWorkersTable, unlines, String.join]
  · rfl

/-- **C8 (amended).** In template mode a failed sink write is surfaced as a
`sinkWrite` error, whether it hits the expansion write or the trailing-newline
write (earlier writes are not rolled back: they remain in the write trace); in
table and verbose mode the renderers return success regardless of the sink, the
flush error being silently discarded. -/
theorem listWorkers_sink_error_modes {τ : Type} (eng : TemplateEngine τ)
    (workers : List WorkerInfo) (v : Bool) :
    (∀ (sink : String → Except String Unit) (t : String) (tc : τ) (s e : String),
      t ≠ "" → eng.parse t = Except.ok tc → eng.execute tc workers = Except.ok s →
      sink s = Except.error e →
      listWorkers eng sink ⟨some t, v⟩ workers =
        (Except.error (RenderError.sinkWrite e), [s])) ∧
    (∀ (sink : String → Except String Unit) (t : String) (tc : τ) (s e : String),
      t ≠ "" → eng.parse t = Except.ok tc → eng.execute tc workers = Except.ok s →
      sink s = Except.ok () → sink "\n" = Except.error e →
      listWorkers eng sink ⟨some t, v⟩ workers =
        (Except.error (RenderError.sinkWrite e), [s, "\n"])) ∧
    (∀ (sink : String → Except String Unit),
      (listWorkers eng sink ⟨none, v⟩ workers).1 =
        Except.ok (if v then Rendered.verbose (printWorkersVerbose workers)
                   else Rendered.table (printWorkersTable workers))) := by
  refine ⟨fun sink t tc s e ht hp he hs => ?_,
          fun sink t tc s e ht hp he hs hn => ?_, fun sink => ?_⟩
  · simp [listWorkers, runTemplateMode, Config.formatString, ht, hp, he, hs]
  · simp [listWorkers, runTemplateMode, Config.formatString, ht, hp, he, hs, hn]
  · cases v <;> simp [listWorkers, Config.formatString]

/-- Witness for the amended C8: a concrete failing sink in template mode is
surfaced, and the same failing sink in table mode is not. -/
theorem listWorkers_sink_error_modes_witness :
    listWorkers constEngine failSink ⟨some "\x7b\x7blen .\x7d\x7d", false⟩ [w0] =
      (Except.error (RenderError.sinkWrite "sink closed"), ["1"]) ∧
    (listWorkers constEngine failSink ⟨none, false⟩ [w0]).1 =
      Except.ok (Rendered.table (printWorkersTable [w0])) := by
  constructor
  · exact (listWorkers_sink_error_modes constEngine [w0] false).1 failSink
      "\x7b\x7blen .\x7d\x7d" () "1" "sink closed" (by decide) rfl rfl rfl
  · exact (listWorkers_sink_error_modes constEngine [w0] false).2.2 failSink

/-- **C3.** In verbose mode the label lines render in strictly ascending
ordinal key order whatever iteration order the label map presents its entries
in (`m'` is any reordering of the worker's label map, and renders identically);
the worker block is the ID / Platforms / BuildKit / `Labels:` header lines
followed immediately by those label lines; and an empty label map renders the
`Labels:` header with no label lines after it. -/
theorem printWorkersVerbose_labels_sorted (wi : WorkerInfo)
    (m' : List (String × String)) (hperm : wi.labels.Perm m')
    (hnd : (wi.labels.map Prod.fst).Nodup) :
    labelLines m' = labelLines wi.labels ∧
    List.Pairwise (· < ·) (sortedKeys wi.labels) ∧
    (workerVerboseLines wi).take (4 + (labelLines wi.labels).length) =
      ["ID:\t" ++ wi.id,
       "Platforms:\t" ++ joinPlatforms wi.platforms,
       "BuildKit:\t" ++ wi.buildkitVersion.pkg ++ " " ++ wi.buildkitVersion.version
         ++ " " ++ wi.buildkitVersion.revision,
       "Labels:"] ++ labelLines wi.labels ∧
    (wi.labels = [] → labelLines wi.labels = []) := by
  refine ⟨?_, sortedKeys_pairwise_lt hnd, ?_, ?_⟩
  · have hk : sortedKeys m' = sortedKeys wi.labels :=
      (sortedKeys_eq_of_perm hperm).symm
    have hv : ∀ k, lookupD m' k = lookupD wi.labels k := fun k => by
      show (m'.lookup k).getD "" = (wi.labels.lookup k).getD ""
      rw [lookup_eq_of_perm hperm hnd k]
    show (sortedKeys m').map _ = (sortedKeys wi.labels).map _
    rw [hk]
    simp only [hv]
  · have hsplit : workerVerboseLines wi =
        (["ID:\t" ++ wi.id,
          "Platforms:\t" ++ joinPlatforms wi.platforms,
          "BuildKit:\t" ++ wi.buildkitVersion.pkg ++ " " ++ wi.buildkitVersion.version
            ++ " " ++ wi.buildkitVersion.revision,
          "Labels:"] ++ labelLines wi.labels) ++
          ((if wi.cdiDevices.length > 0 then
              "Devices:" :: (wi.cdiDevices.flatMap deviceLines ++ [""])
            else []) ++
           ((wi.gcPolicy.enum.flatMap (fun p => gcRuleLines p.1 p.2)) ++ [""])) := by
      simp only [workerVerboseLines, List.append_assoc]
    rw [hsplit]
    exact take_append_pair
      ["ID:\t" ++ wi.id,
       "Platforms:\t" ++ joinPlatforms wi.platforms,
       "BuildKit:\t" ++ wi.buildkitVersion.pkg ++ " " ++ wi.buildkitVersion.version
         ++ " " ++ wi.buildkitVersion.revision,
       "Labels:"] (labelLines wi.labels) _
  · intro h
    rw [h]
    rfl

/-- Witness for C3: a two-label worker against the reversed entry order. -/
theorem printWorkersVerbose_labels_sorted_witness :
    labelLines [("b", "2"), ("a", "1")] =
      labelLines [("a", "1"), ("b", "2")] ∧
    List.Pairwise (· < ·) (sortedKeys ([("a", "1"), ("b", "2")] : List (String × String))) ∧
    (workerVerboseLines { w0 with labels := [("a", "1"), ("b", "2")] }).take
        (4 + (labelLines [("a", "1"), ("b", "2")]).length) =
      ["ID:\t" ++ w0.id,
       "Platforms:\t" ++ joinPlatforms w0.platforms,
       "BuildKit:\t" ++ w0.buildkitVersion.pkg ++ " " ++ w0.buildkitVersion.version
         ++ " " ++ w0.buildkitVersion.revision,
       "Labels:"] ++ labelLines [("a", "1"), ("b", "2")] ∧
    (([("a", "1"), ("b", "2")] : List (String × String)) = [] →
      labelLines [("a", "1"), ("b", "2")] = []) :=
  printWorkersVerbose_labels_sorted { w0 with labels := [("a", "1"), ("b", "2")] }
    [("b", "2"), ("a", "1")] (List.Perm.swap _ _ _) (by decide)

/-- **C4.** Each rendered device block carries exactly one of the
`OnDemand:`/`AutoAllow:` lines: one `OnDemand:` line and no `AutoAllow:` line
when `onDemand` is true, no `OnDemand:` line and one `AutoAllow:` line when it
is false — `onDemand` takes precedence and the two are mutually exclusive
display modes. -/
theorem deviceLines_flag_exclusive (d : CDIDevice) :
    (deviceLines d).countP (lineTagged "\tOnDemand:") =
      (if d.onDemand then 1 else 0) ∧
    (deviceLines d).countP (lineTagged "\tAutoAllow:") =
      (if d.onDemand then 0 else 1) := by
  obtain ⟨nm, aa, od, ann⟩ := d
  have hname_od : lineTagged "\tOnDemand:" ("\tName:\t" ++ nm) = false :=
    lineTagged_append_false _ _ _ (by decide) (by decide)
  have hname_aa : lineTagged "\tAutoAllow:" ("\tName:\t" ++ nm) = false :=
    lineTagged_append_false _ _ _ (by decide) (by decide)
  have hann_od : ∀ k ∈ sortedKeys ann,
      ¬ lineTagged "\tOnDemand:" ("\tAnnotations:\t" ++ (k ++ (":\t" ++ lookupD ann k))) := by
    intro k _
    simp [lineTagged_append_false "\tOnDemand:" "\tAnnotations:\t"
      (k ++ (":\t" ++ lookupD ann k)) (by decide) (by decide)]
  have hann_aa : ∀ k ∈ sortedKeys ann,
      ¬ lineTagged "\tAutoAllow:" ("\tAnnotations:\t" ++ (k ++ (":\t" ++ lookupD ann k))) := by
    intro k _
    simp [lineTagged_append_false "\tAutoAllow:" "\tAnnotations:\t"
      (k ++ (":\t" ++ lookupD ann k)) (by decide) (by decide)]
  cases od with
  | true =>
    have hline_od : lineTagged "\tOnDemand:" ("\tOnDemand:\t" ++ goFormatBool true) = true :=
      lineTagged_append_true _ _ _ (by decide)
    have hline_aa : lineTagged "\tAutoAllow:" ("\tOnDemand:\t" ++ goFormatBool true) = false :=
      lineTagged_append_false _ _ _ (by decide) (by decide)
    constructor <;>
      simp [deviceLines, annotationLines, List.countP_cons, List.countP_map,
        String.append_assoc, hname_od, hname_aa, hline_od, hline_aa] <;>
      (intro a ha; first
        | simpa using hann_od a ha
        | simpa using hann_aa a ha)
  | false =>
    have hline_od : lineTagged "\tOnDemand:" ("\tAutoAllow:\t" ++ goFormatBool aa) = false :=
      lineTagged_append_false _ _ _ (by decide) (by decide)
    have hline_aa : lineTagged "\tAutoAllow:" ("\tAutoAllow:\t" ++ goFormatBool aa) = true :=
      lineTagged_append_true _ _ _ (by decide)
    constructor <;>
      simp [deviceLines, annotationLines, List.countP_cons, List.countP_map,
        String.append_assoc, hname_od, hname_aa, hline_od, hline_aa] <;>
      (intro a ha; first
        | simpa using hann_od a ha
        | simpa using hann_aa a ha)

set_option maxHeartbeats 1000000 in
/-- **C5.** Each optional GC-rule line (`Filters`, `Keep duration`,
`Reserved space`, `Minimum free space`, `Maximum used space`) appears exactly
once when its field is non-zero / non-empty and never otherwise; in particular
an all-zero rule with no filters renders only the rule header and the `All:`
line. -/
theorem gcRuleLines_optional (i : Nat) (rule : GCPolicyRule) :
    (gcRuleLines i rule).countP (lineTagged "\tFilters:") =
      (if rule.filter.length > 0 then 1 else 0) ∧
    (gcRuleLines i rule).countP (lineTagged "\tKeep duration:") =
      (if rule.keepDuration > 0 then 1 else 0) ∧
    (gcRuleLines i rule).countP (lineTagged "\tReserved space:") =
      (if rule.reservedSpace > 0 then 1 else 0) ∧
    (gcRuleLines i rule).countP (lineTagged "\tMinimum free space:") =
      (if rule.minFreeSpace > 0 then 1 else 0) ∧
    (gcRuleLines i rule).countP (lineTagged "\tMaximum used space:") =
      (if rule.maxUsedSpace > 0 then 1 else 0) ∧
    (rule.filter = [] → rule.keepDuration = 0 → rule.reservedSpace = 0 →
      rule.minFreeSpace = 0 → rule.maxUsedSpace = 0 →
      gcRuleLines i rule =
        ["GC Policy rule#" ++ toString i ++ ":", "\tAll:\t" ++ goFormatBool rule.all]) := by
  refine ⟨?_, ?_, ?_, ?_, ?_, ?_⟩
  case _ =>
    simp only [gcRuleLines, String.append_assoc, List.countP_append,
      apply_ite (List.countP (lineTagged "\tFilters:")), List.countP_cons, List.countP_nil,
      lineTagged_append_false "\tFilters:" "GC Policy rule#"
        (toString i ++ ":") (by decide) (by decide),
      lineTagged_append_false "\tFilters:" "\tAll:\t"
        (goFormatBool rule.all) (by decide) (by decide),
      lineTagged_append_true "\tFilters:" "\tFilters:\t"
        (String.intercalate " " rule.filter) (by decide),
      lineTagged_append_false "\tFilters:" "\tKeep duration:\t"
        (durationString rule.keepDuration) (by decide) (by decide),
      lineTagged_append_false "\tFilters:" "\tReserved space:\t"
        (unitsBytes rule.reservedSpace) (by decide) (by decide),
      lineTagged_append_false "\tFilters:" "\tMinimum free space:\t"
        (unitsBytes rule.minFreeSpace) (by decide) (by decide),
      lineTagged_append_false "\tFilters:" "\tMaximum used space:\t"
        (unitsBytes rule.maxUsedSpace) (by decide) (by decide)]
    simp
  case _ =>
    simp only [gcRuleLines, String.append_assoc, List.countP_append,
      apply_ite (List.countP (lineTagged "\tKeep duration:")), List.countP_cons, List.countP_nil,
      lineTagged_append_false "\tKeep duration:" "GC Policy rule#"
        (toString i ++ ":") (by decide) (by decide),
      lineTagged_append_false "\tKeep duration:" "\tAll:\t"
        (goFormatBool rule.all) (by decide) (by decide),
      lineTagged_append_false "\tKeep duration:" "\tFilters:\t"
        (String.intercalate " " rule.filter) (by decide) (by decide),
      lineTagged_append_true "\tKeep duration:" "\tKeep duration:\t"
        (durationString rule.keepDuration) (by decide),
      lineTagged_append_false "\tKeep duration:" "\tReserved space:\t"
        (unitsBytes rule.reservedSpace) (by decide) (by decide),
      lineTagged_append_false "\tKeep duration:" "\tMinimum free space:\t"
        (unitsBytes rule.minFreeSpace) (by decide) (by decide),
      lineTagged_append_false "\tKeep duration:" "\tMaximum used space:\t"
        (unitsBytes rule.maxUsedSpace) (by decide) (by decide)]
    simp
  case _ =>
    simp only [gcRuleLines, String.append_assoc, List.countP_append,
      apply_ite (List.countP (lineTagged "\tReserved space:")), List.countP_cons, List.countP_nil,
      lineTagged_append_false "\tReserved space:" "GC Policy rule#"
        (toString i ++ ":") (by decide) (by decide),
      lineTagged_append_false "\tReserved space:" "\tAll:\t"
        (goFormatBool rule.all) (by decide) (by decide),
      lineTagged_append_false "\tReserved space:" "\tFilters:\t"
        (String.intercalate " " rule.filter) (by decide) (by decide),
      lineTagged_append_false "\tReserved space:" "\tKeep duration:\t"
        (durationString rule.keepDuration) (by decide) (by decide),
      lineTagged_append_true "\tReserved space:" "\tReserved space:\t"
        (unitsBytes rule.reservedSpace) (by decide),
      lineTagged_append_false "\tReserved space:" "\tMinimum free space:\t"
        (unitsBytes rule.minFreeSpace) (by decide) (by decide),
      lineTagged_append_false "\tReserved space:" "\tMaximum used space:\t"
        (unitsBytes rule.maxUsedSpace) (by decide) (by decide)]
    simp
  case _ =>
    simp only [gcRuleLines, String.append_assoc, List.countP_append,
      apply_ite (List.countP (lineTagged "\tMinimum free space:")), List.countP_cons, List.countP_nil,
      lineTagged_append_false "\tMinimum free space:" "GC Policy rule#"
        (toString i ++ ":") (by decide) (by decide),
      lineTagged_append_false "\tMinimum free space:" "\tAll:\t"
        (goFormatBool rule.all) (by decide) (by decide),
      lineTagged_append_false "\tMinimum free space:" "\tFilters:\t"
        (String.intercalate " " rule.filter) (by decide) (by decide),
      lineTagged_append_false "\tMinimum free space:" "\tKeep duration:\t"
        (durationString rule.keepDuration) (by decide) (by decide),
      lineTagged_append_false "\tMinimum free space:" "\tReserved space:\t"
        (unitsBytes rule.reservedSpace) (by decide) (by decide),
      lineTagged_append_true "\tMinimum free space:" "\tMinimum free space:\t"
        (unitsBytes rule.minFreeSpace) (by decide),
      lineTagged_append_false "\tMinimum free space:" "\tMaximum used space:\t"
        (unitsBytes rule.maxUsedSpace) (by decide) (by decide)]
    simp
  case _ =>
    simp only [gcRuleLines, String.append_assoc, List.countP_append,
      apply_ite (List.countP (lineTagged "\tMaximum used space:")), List.countP_cons, List.countP_nil,
      lineTagged_append_false "\tMaximum used space:" "GC Policy rule#"
        (toString i ++ ":") (by decide) (by decide),
      lineTagged_append_false "\tMaximum used space:" "\tAll:\t"
        (goFormatBool rule.all) (by decide) (by decide),
      lineTagged_append_false "\tMaximum used space:" "\tFilters:\t"
        (String.intercalate " " rule.filter) (by decide) (by decide),
      lineTagged_append_false "\tMaximum used space:" "\tKeep duration:\t"
        (durationString rule.keepDuration) (by decide) (by decide),
      lineTagged_append_false "\tMaximum used space:" "\tReserved space:\t"
        (unitsBytes rule.reservedSpace) (by decide) (by decide),
      lineTagged_append_false "\tMaximum used space:" "\tMinimum free space:\t"
        (unitsBytes rule.minFreeSpace) (by decide) (by decide),
      lineTagged_append_true "\tMaximum used space:" "\tMaximum used space:\t"
        (unitsBytes rule.maxUsedSpace) (by decide)]
    simp
  case _ =>
    intro hf hk hr hm hx
    simp [gcRuleLines, hf, hk, hr, hm, hx]

/-- Witness for C5: an all-zero rule at index 0 renders exactly the header and
the `All:` line, and each optional-line count follows its gate. -/
theorem gcRuleLines_optional_witness :
    gcRuleLines 0 ⟨true, [], 0, 0, 0, 0⟩ =
      ["GC Policy rule#" ++ toString 0 ++ ":", "\tAll:\t" ++ goFormatBool true] ∧
    (gcRuleLines 0 ⟨true, [], 0, 0, 0, 0⟩).countP (lineTagged "\tFilters:") =
      (if ([] : List String).length > 0 then 1 else 0) :=
  ⟨(gcRuleLines_optional 0 ⟨true, [], 0, 0, 0, 0⟩).2.2.2.2.2 rfl rfl rfl rfl rfl,
   (gcRuleLines_optional 0 ⟨true, [], 0, 0, 0, 0⟩).1⟩

end BuildctlDebug
